import Mathlib

/-!
# Mystery game client (`src/client/static/script.js`)

A shallow embedding of the game UI controller: the script's globals and the
parts of the page it reads or writes become fields of `State`, and every
function and event handler becomes a function on `State`.  A handler that can
throw returns an `Outcome`: the state reached when it stopped, and the
exception, if any, that stopped it.
-/

namespace MysteryGame

/-! ## Data model -/

/-- One entry of the `suspects` array (lines 40-45): the objects carry `name`
and `role` and nothing else (in particular no `avatar` and no `id`). -/
structure Suspect where
  name : String
  role : String
deriving DecidableEq, Repr

/-- One `div` appended to `chatMessages` by `addDetectiveMessage`,
`addSuspectMessage` or `addSystemMessage`: its class, whether the inline
system colours were set on it, and the two interpolated texts of its markup. -/
structure Message where
  className : String
  systemStyle : Bool
  label : String
  text : String
deriving DecidableEq, Repr

/-- Exceptions the script can raise. -/
inductive JsError where
  | referenceError
  | typeError
  | syntaxError
  | invalidStateError
deriving DecidableEq, Repr

/-- The `readyState` of the socket created at line 30. -/
inductive ReadyState where
  | CONNECTING
  | OPEN
  | CLOSING
  | CLOSED
deriving DecidableEq, Repr

/-- A value of the language as `JSON.parse` builds it, or `undefined` for a
property that is absent.  A number is given by the text that converting it to
a string yields.  Of a plain object only the names of its own properties are
kept: their values take no part in converting the object to a string. -/
inductive JsValue where
  | undefined
  | null
  | bool (b : Bool)
  | num (rendering : String)
  | str (s : String)
  | arr (items : List JsValue)
  | obj (keys : List String)

/-- State of the page as far as the script reads or writes it.

* `currentSuspectIndex`, `suspects`, `characters`, `killer`: the globals of
  lines 2-5 and 39 (`killer` is `undefined`, here `none`, until an intro
  message arrives);
* `choice`: the global `choice` that `solveCase` reads and that the dialog
  callback assigns without any declaration; `none` means the binding does not
  exist yet;
* `startActive` .. `defeatActive`: whether the class `active` is on the four
  screen elements;
* `suspectName` .. `nextDisabled`: what `loadSuspect` writes;
* `chatMessages`: the children of the chat container, oldest first;
* `questionInput`: the value of the input field;
* `readyState`: the state of the connection `ws`;
* `sent`: the frames that `ws.send` transmitted, oldest first;
* `alerts`: the texts shown with `alert`, oldest first;
* `dialogs`: the texts of the dialogs opened with `Swal.fire`, oldest first. -/
structure State where
  currentSuspectIndex : Nat
  suspects : List Suspect
  characters : List String
  killer : Option String
  choice : Option String
  startActive : Bool
  gameActive : Bool
  victoryActive : Bool
  defeatActive : Bool
  suspectName : String
  suspectRole : String
  suspectNumber : String
  prevDisabled : Bool
  nextDisabled : Bool
  chatMessages : List Message
  questionInput : String
  readyState : ReadyState
  sent : List String
  alerts : List String
  dialogs : List String
deriving DecidableEq, Repr

/-- Result of running a handler: the state when it returned or threw, and the
exception that ended it (`none` for a normal return). -/
structure Outcome where
  state : State
  thrown : Option JsError
deriving DecidableEq, Repr

/-- The value `data` obtained from `JSON.parse(event.data)` in `ws.onmessage`,
seen through the four properties the handler reads: `data.type` as the value it
is (`undefined` when absent), `data.characters`, `data.killer` (a string, or
`none` when absent) and the text that interpolating `data.message` into the
markup gives.  A parsed number, string, boolean or array has none of the four:
its `type` is `undefined`. -/
structure Inbound where
  type : JsValue
  characters : List String
  killer : Option String
  message : String

/-- What `event.data` holds: a text that `JSON.parse` rejects, the text `null`,
or a text that parses to some other value. -/
inductive Frame where
  | malformed
  | null
  | record (data : Inbound)

/-- What the promise returned by `Swal.fire` resolves to: `isConfirmed`, and
`value`, the content of the text input. -/
structure DialogResult where
  isConfirmed : Bool
  value : String
deriving DecidableEq, Repr

/-- Sequencing of statements: what follows runs on the state reached, unless
an exception has ended the handler. -/
def Outcome.andThen (r : Outcome) (f : State → Outcome) : Outcome :=
  match r.thrown with
  | some _ => r
  | none => f r.state

/-- The roster assigned to `suspects` at lines 40-45. -/
def roster : List Suspect :=
  [ ⟨"Jack Domador", "Domador"⟩,
    ⟨"Madame Seraphine", "Vidente"⟩,
    ⟨"Mefisto Bombita", "Payaso"⟩,
    ⟨"Silvana Funambula", "Equilibrista"⟩,
    ⟨"Ñopin Desfijo", "Director y maestro de ceremonias"⟩ ]

/-! ## String primitives of the language -/

/-- The code points that `String.prototype.trim` and `parseInt` strip
(ECMAScript `WhiteSpace` and `LineTerminator`). -/
def isJsWhitespace (c : Char) : Bool :=
  let n := c.toNat
  n == 0x09 || n == 0x0A || n == 0x0B || n == 0x0C || n == 0x0D || n == 0x20 ||
  n == 0xA0 || n == 0x1680 || (0x2000 ≤ n && n ≤ 0x200A) || n == 0x2028 ||
  n == 0x2029 || n == 0x202F || n == 0x205F || n == 0x3000 || n == 0xFEFF

/-- Drop the leading whitespace of a list of characters. -/
def trimStartChars (cs : List Char) : List Char :=
  cs.dropWhile isJsWhitespace

/-- Drop the trailing whitespace of a list of characters. -/
def trimEndChars (cs : List Char) : List Char :=
  (cs.reverse.dropWhile isJsWhitespace).reverse

/-- The method `String.prototype.trim`. -/
def jsTrim (s : String) : String :=
  ⟨trimEndChars (trimStartChars s.data)⟩

/-- Value of a character as a digit in the given radix (10 or 16), if it is one. -/
def digitValue (radix : Nat) (c : Char) : Option Nat :=
  let n := c.toNat
  if 48 ≤ n ∧ n ≤ 57 then some (n - 48)
  else if radix = 16 ∧ 97 ≤ n ∧ n ≤ 102 then some (n - 87)
  else if radix = 16 ∧ 65 ≤ n ∧ n ≤ 70 then some (n - 55)
  else none

/-- The longest prefix of digits of the radix, as their values. -/
def takeDigits (radix : Nat) : List Char → List Nat
  | [] => []
  | c :: cs =>
    match digitValue radix c with
    | some d => d :: takeDigits radix cs
    | none => []

/-- The number a list of digit values denotes. -/
def digitsValue (radix : Nat) (ds : List Nat) : Nat :=
  ds.foldl (fun acc d => acc * radix + d) 0

/-- Last steps of `parseInt`: the digits of the radix at the front of the
input; none gives `NaN` (here `none`). -/
def parseDigits (radix : Nat) (sign : Int) (cs : List Char) : Option Int :=
  match takeDigits radix cs with
  | [] => none
  | d :: ds => some (sign * (digitsValue radix (d :: ds) : Int))

/-- Middle step of `parseInt` with no radix argument: a `0x` or `0X` prefix
selects radix 16, anything else radix 10. -/
def parseUnsigned (sign : Int) (cs : List Char) : Option Int :=
  match cs with
  | '0' :: 'x' :: rest => parseDigits 16 sign rest
  | '0' :: 'X' :: rest => parseDigits 16 sign rest
  | _ => parseDigits 10 sign cs

/-- The function `parseInt(string)` with one argument: leading whitespace is
skipped, then an optional sign, then the digits; `none` stands for `NaN`.  The
result is the exact integer; the script only compares it with `1` and with
`suspects.length`, and rounding to a double does not change those
comparisons. -/
def jsParseInt (s : String) : Option Int :=
  match trimStartChars s.data with
  | '-' :: rest => parseUnsigned (-1) rest
  | '+' :: rest => parseUnsigned 1 rest
  | cs => parseUnsigned 1 cs

mutual
/-- What an element contributes to `Array.prototype.join`: nothing for `null`
and `undefined`, otherwise its conversion to a string; `none` when that
conversion throws a `TypeError`. -/
def itemText : JsValue → Option String
  | .undefined => some ""
  | .null => some ""
  | .bool b => some (if b then "true" else "false")
  | .num rendering => some rendering
  | .str s => some s
  | .arr items => joinItems items
  | .obj keys => if "toString" ∈ keys then none else some "[object Object]"

/-- The call `join(",")` that `Array.prototype.toString` makes: the texts of
the elements with commas between them. -/
def joinItems : List JsValue → Option String
  | [] => some ""
  | [v] => itemText v
  | v :: w :: rest =>
    match itemText v with
    | none => none
    | some t =>
      match joinItems (w :: rest) with
      | none => none
      | some u => some (t ++ "," ++ u)
end

/-- The comparison `v == word` of lines 50 and 56, for a `word` that is not the
text of a number (a text starting with a lowercase letter, as `"intro"` and
`"answer"`, is none): `none` when the comparison throws a `TypeError`.

* `undefined` and `null` equal no string;
* a boolean or a number is compared with the number the word denotes, which is
  `NaN`, so it is never equal;
* a string is compared as it is;
* an array is first converted with `join`, and a plain object with
  `Object.prototype.toString`, which gives `[object Object]`; an object with an
  own property `toString` (never a function after `JSON.parse`) cannot be
  converted. -/
def looseEqWord (v : JsValue) (word : String) : Option Bool :=
  match v with
  | .undefined => some false
  | .null => some false
  | .bool _ => some false
  | .num _ => some false
  | .str s => some (decide (s = word))
  | .arr items =>
    match joinItems items with
    | none => none
    | some t => some (decide (t = word))
  | .obj keys =>
    if "toString" ∈ keys then none else some (decide ("[object Object]" = word))

/-! ## The functions of the script -/

/-- Lines 74-79: remove `active` from the four screens. -/
def hideAllScreens (s : State) : State :=
  { s with startActive := false, gameActive := false,
           victoryActive := false, defeatActive := false }

/-- Lines 82-95.  Reading `suspect["name"]` throws a `TypeError` when
`suspects[index]` is `undefined`, before anything is written. -/
def loadSuspect (index : Nat) (s : State) : Outcome :=
  match s.suspects[index]? with
  | none => ⟨s, some .typeError⟩
  | some suspect =>
    ⟨{ s with
        suspectName := suspect.name,
        suspectRole := suspect.role,
        suspectNumber := toString (index + 1) ++ "/" ++ toString s.suspects.length,
        prevDisabled := decide (index = 0),
        nextDisabled := decide ((index : Int) = (s.suspects.length : Int) - 1),
        chatMessages := [] }, none⟩

/-- Lines 61-67. -/
def startGame (s : State) : Outcome :=
  let s1 := hideAllScreens s
  let s2 := { s1 with gameActive := true }
  let s3 := { s2 with currentSuspectIndex := 0 }
  loadSuspect s3.currentSuspectIndex s3

/-- Lines 69-72. -/
def goToStart (s : State) : State :=
  let s1 := hideAllScreens s
  { s1 with startActive := true }

/-- The `div` built at lines 147-152. -/
def detectiveMessage (text : String) : Message :=
  { className := "message detective", systemStyle := false,
    label := "🔍 DETECTIVE:", text := text }

/-- The `div` built at lines 160-165.  The roster objects have no `avatar`
property, so the template renders that part as `undefined`. -/
def suspectMessage (suspect : Suspect) (text : String) : Message :=
  { className := "message suspect", systemStyle := false,
    label := "undefined " ++ suspect.name ++ ":", text := text }

/-- The `div` built at lines 172-180. -/
def systemMessage (text : String) : Message :=
  { className := "message suspect", systemStyle := true,
    label := "🎪 SISTEMA:", text := text }

/-- Lines 146-155. -/
def addDetectiveMessage (text : String) (s : State) : State :=
  { s with chatMessages := s.chatMessages ++ [detectiveMessage text] }

/-- Lines 158-168.  Reading `suspect.avatar` throws a `TypeError` when
`suspects[currentSuspectIndex]` is `undefined`. -/
def addSuspectMessage (text : String) (s : State) : Outcome :=
  match s.suspects[s.currentSuspectIndex]? with
  | none => ⟨s, some .typeError⟩
  | some suspect =>
    ⟨{ s with chatMessages := s.chatMessages ++ [suspectMessage suspect text] }, none⟩

/-- Lines 171-183. -/
def addSystemMessage (text : String) (s : State) : State :=
  { s with chatMessages := s.chatMessages ++ [systemMessage text] }

/-- One call of `ws.send`: it throws an `InvalidStateError` while the socket is
still connecting, transmits the frame when the socket is open, and drops the
frame without an exception when the socket is closing or closed. -/
def wsSend (frame : String) (s : State) : Outcome :=
  match s.readyState with
  | .CONNECTING => ⟨s, some .invalidStateError⟩
  | .OPEN => ⟨{ s with sent := s.sent ++ [frame] }, none⟩
  | .CLOSING => ⟨s, none⟩
  | .CLOSED => ⟨s, none⟩

/-- One call of `alert`. -/
def alert (text : String) (s : State) : State :=
  { s with alerts := s.alerts ++ [text] }

/-- Lines 111-119.  The question is the trimmed value of the input field; an
empty one returns at once. -/
def sendQuestion (s : State) : Outcome :=
  let question := jsTrim s.questionInput
  if question = "" then ⟨s, none⟩
  else
    let s1 := addDetectiveMessage question s
    let s2 := { s1 with questionInput := "" }
    match s2.suspects[s2.currentSuspectIndex]? with
    | none => ⟨s2, some .typeError⟩
    | some suspect =>
      (wsSend ("interrogar " ++ suspect.name) s2).andThen (wsSend question)

/-- The handler `ws.onmessage` (lines 48-60).  `JSON.parse` throws a
`SyntaxError` on a malformed text; reading `data.type` throws a `TypeError`
when `data` is `null`; the two tests are the loose comparisons of `data.type`
with `"intro"` and with `"answer"`. -/
def onmessage (event : Frame) (s : State) : Outcome :=
  match event with
  | .malformed => ⟨s, some .syntaxError⟩
  | .null => ⟨s, some .typeError⟩
  | .record data =>
    match looseEqWord data.type "intro" with
    | none => ⟨s, some .typeError⟩
    | some true =>
      ⟨{ s with characters := data.characters, killer := data.killer }, none⟩
    | some false =>
      match looseEqWord data.type "answer" with
      | none => ⟨s, some .typeError⟩
      | some true => addSuspectMessage data.message s
      | some false => ⟨s, none⟩

/-- The notice of lines 243 and 251. -/
def switchNotice (s : State) : String :=
  "🔄 Cambiando a sospechoso " ++ toString (s.currentSuspectIndex + 1) ++ " de " ++
    toString s.suspects.length

/-- The click handler of `prevBtn` (lines 239-245). -/
def prev (s : State) : Outcome :=
  if s.currentSuspectIndex > 0 then
    let s1 := { s with currentSuspectIndex := s.currentSuspectIndex - 1 }
    (loadSuspect s1.currentSuspectIndex s1).andThen
      (fun s2 => ⟨addSystemMessage (switchNotice s2) s2, none⟩)
  else ⟨s, none⟩

/-- The click handler of `nextBtn` (lines 247-253). -/
def next (s : State) : Outcome :=
  if (s.currentSuspectIndex : Int) < (s.suspects.length : Int) - 1 then
    let s1 := { s with currentSuspectIndex := s.currentSuspectIndex + 1 }
    (loadSuspect s1.currentSuspectIndex s1).andThen
      (fun s2 => ⟨addSystemMessage (switchNotice s2) s2, none⟩)
  else ⟨s, none⟩

/-- The text of the dialog (lines 187-188): one numbered line per suspect. -/
def suspectList (s : State) : String :=
  "\n".intercalate
    ((s.suspects.map (fun x => x.name)).enum.map
      (fun p => "\n" ++ toString (p.1 + 1) ++ ". " ++ p.2))

/-- The callback given to `.then` at lines 204-208.  It runs when the dialog
is closed, which is after the body of the `solveCase` call that opened it has
finished.  The assignment creates the global `choice` when it does not exist. -/
def dialogClosed (result : DialogResult) (s : State) : State :=
  if result.isConfirmed then { s with choice := some result.value } else s

/-- The body of `solveCase` (lines 186-229).  `Swal.fire` opens the dialog and
returns a promise at once; the rest of the body runs before the user can
answer, with the `choice` that is in the global at that moment.  Reading
`choice` throws a `ReferenceError` while the binding does not exist.  A
`choice` that exists is a string, so the `null` test of line 209 is false. -/
def solveCase (s : State) : Outcome :=
  let s1 := { s with dialogs := s.dialogs ++ [suspectList s] }
  match s1.choice with
  | none => ⟨s1, some .referenceError⟩
  | some choice =>
    match jsParseInt choice with
    | none => ⟨alert "Número inválido. Intenta de nuevo." s1, none⟩
    | some choiceNum =>
      if choiceNum < 1 ∨ choiceNum > (s1.suspects.length : Int) then
        ⟨alert "Número inválido. Intenta de nuevo." s1, none⟩
      else
        match s1.suspects[(choiceNum - 1).toNat]? with
        | none => ⟨s1, some .typeError⟩
        | some chosenSuspect =>
          if some chosenSuspect.name = s1.killer then
            let s2 := hideAllScreens s1
            ⟨{ s2 with victoryActive := true }, none⟩
          else
            let s2 := hideAllScreens s1
            ⟨{ s2 with defeatActive := true }, none⟩

/-- A call of `solveCase` followed by the closing of the dialog that this call
opened. -/
def solveCaseThen (result : DialogResult) (s : State) : Outcome :=
  let r := solveCase s
  ⟨dialogClosed result r.state, r.thrown⟩

/-! ## The controller as a transition system -/

/-- The events the controller reacts to.  `sendQuestion text` is a click on the
send button (or Enter) with `text` in the input field; `connection r` is the
socket passing to the ready state `r`. -/
inductive Op where
  | goToStart
  | startGame
  | prev
  | next
  | sendQuestion (text : String)
  | message (event : Frame)
  | solveCase
  | dialogClosed (result : DialogResult)
  | connection (r : ReadyState)

/-- State after one event. -/
def step (s : State) : Op → State
  | .goToStart => goToStart s
  | .startGame => (startGame s).state
  | .prev => (prev s).state
  | .next => (next s).state
  | .sendQuestion text => (sendQuestion { s with questionInput := text }).state
  | .message event => (onmessage event s).state
  | .solveCase => (solveCase s).state
  | .dialogClosed result => dialogClosed result s
  | .connection r => { s with readyState := r }

/-- State after a sequence of events, first event first. -/
def run (s : State) (ops : List Op) : State :=
  ops.foldl step s

/-- What the script itself fixes when it is loaded (lines 2-5, 30, 39-45),
together with the Start screen being the only active one; the rest of the page
is left open. -/
def Initial (s : State) : Prop :=
  s.currentSuspectIndex = 0 ∧ s.suspects = roster ∧ s.characters = [] ∧
  s.killer = none ∧ s.choice = none ∧
  s.startActive = true ∧ s.gameActive = false ∧
  s.victoryActive = false ∧ s.defeatActive = false ∧
  s.readyState = .CONNECTING ∧ s.sent = [] ∧ s.alerts = [] ∧ s.dialogs = []

/-- The page right after loading, with empty text elements and an empty chat. -/
def initialState : State :=
  { currentSuspectIndex := 0, suspects := roster, characters := [],
    killer := none, choice := none,
    startActive := true, gameActive := false, victoryActive := false,
    defeatActive := false,
    suspectName := "", suspectRole := "", suspectNumber := "",
    prevDisabled := false, nextDisabled := false,
    chatMessages := [], questionInput := "", readyState := .CONNECTING,
    sent := [], alerts := [], dialogs := [] }

/-- Number of screens that carry `active`. -/
def activeCount (s : State) : Nat :=
  s.startActive.toNat + s.gameActive.toNat + s.victoryActive.toNat + s.defeatActive.toNat

/-- Whether a text is empty or made of whitespace only. -/
def isBlank (text : String) : Bool :=
  text.data.all isJsWhitespace

/-- What no event changes or breaks: the roster, the index staying inside it,
and a single active screen. -/
def Inv (s : State) : Prop :=
  s.suspects = roster ∧ s.currentSuspectIndex < 5 ∧ activeCount s = 1

/-! ## Concrete states and messages -/

/-- The intro message of a session whose killer is the third suspect. -/
def introMessage : Inbound :=
  { type := .str "intro",
    characters := ["Jack Domador", "Madame Seraphine", "Mefisto Bombita",
                   "Silvana Funambula", "Ñopin Desfijo"],
    killer := some "Mefisto Bombita",
    message := "" }

/-- An answer message. -/
def answerMessage : Inbound :=
  { type := .str "answer", characters := [], killer := none,
    message := "Estaba en la carpa." }

/-- A message whose type is the array holding the string answer, as the text
`{"type":["answer"],"message":"x"}` parses. -/
def arrayAnswerMessage : Inbound :=
  { type := .arr [.str "answer"], characters := [], killer := none, message := "x" }

/-- A message whose type is the array holding the string intro, with a killer
and an empty list of characters. -/
def arrayIntroMessage : Inbound :=
  { type := .arr [.str "intro"], characters := [], killer := some "Jack Domador",
    message := "" }

/-- A message of a kind the handler does not know. -/
def pingMessage : Inbound :=
  { type := .str "ping", characters := ["x"], killer := some "Jack Domador",
    message := "hola" }

/-- A message without a type. -/
def untypedMessage : Inbound :=
  { type := .undefined, characters := ["x"], killer := some "Jack Domador",
    message := "hola" }

/-- A message whose type is an array of two strings and a number, which `==`
converts to the text `an,swer,1`. -/
def splitTypeMessage : Inbound :=
  { type := .arr [.str "an", .str "swer", .num "1"], characters := ["x"],
    killer := some "Jack Domador", message := "hola" }

/-- A message whose type is a plain object with an own property toString. -/
def oddTypeMessage : Inbound :=
  { type := .obj ["toString"], characters := ["x"], killer := some "Jack Domador",
    message := "hola" }

/-- A state with three screens active at once and an empty roster. -/
def scrambledState : State :=
  { initialState with
    suspects := [], gameActive := true, defeatActive := true, currentSuspectIndex := 7 }

/-- The game with the first suspect loaded, on an open connection. -/
def firstSuspectState : State :=
  run initialState
    [.connection .OPEN, .startGame, .message (.record introMessage), .sendQuestion "hola"]

/-- The game with the last suspect loaded, on an open connection. -/
def lastSuspectState : State :=
  run initialState
    [.connection .OPEN, .startGame, .next, .next, .next, .next, .sendQuestion "hola"]

/-- The game at the third suspect, on an open connection, with three messages
in the transcript: the switch notice, a question and its answer. -/
def thirdSuspectState : State :=
  run initialState
    [.connection .OPEN, .startGame, .next, .next, .sendQuestion "hola",
     .message (.record answerMessage)]

/-- A question sent to the first suspect, then a switch to the third one. -/
def askedFirstThenSwitched : State :=
  run initialState
    [.connection .OPEN, .startGame, .sendQuestion "hola", .next, .next,
     .sendQuestion "y usted"]

/-- The game at the third suspect with a question typed in while the socket is
still connecting: nothing has opened the connection since the page loaded. -/
def earlyQuestionState : State :=
  { run initialState [.startGame, .next, .next] with questionInput := "Where were you?" }

/-- The third suspect with spaces, a tab and a no-break space typed in. -/
def blankInputState : State :=
  { thirdSuspectState with questionInput := "  \t\u00a0 " }

/-- The third suspect with a question typed in, a space before and after it. -/
def paddedInputState : State :=
  { thirdSuspectState with questionInput := " Where were you? " }

/-- The game screen after starting a session whose killer is the third
suspect; no dialog has been answered yet. -/
def caseOpened : State :=
  run initialState [.startGame, .message (.record introMessage)]

/-- The same session after a first solveCase call whose dialog was confirmed
with the number 1. -/
def afterFirstAccusation : State :=
  (solveCaseThen ⟨true, "1"⟩ caseOpened).state

/-- The same session after a first solveCase call whose dialog was confirmed
with the number 3. -/
def afterThirdChosen : State :=
  (solveCaseThen ⟨true, "3"⟩ caseOpened).state

/-! ## Auxiliary facts -/

theorem initial_initialState : Initial initialState := by
  simp [Initial, initialState]

theorem roster_length : roster.length = 5 := rfl

theorem dropWhile_nil_of_all {p : Char → Bool} :
    ∀ l : List Char, (∀ c ∈ l.dropWhile p, p c = true) → l.dropWhile p = []
  | [], _ => rfl
  | c :: cs, h => by
    by_cases hc : p c = true
    · simp only [List.dropWhile_cons_of_pos hc] at h ⊢
      exact dropWhile_nil_of_all cs h
    · exfalso
      rw [List.dropWhile_cons_of_neg hc] at h
      exact hc (h c (List.mem_cons_self _ _))

/-- The trimmed text is empty exactly when every character of the input is
whitespace (in particular when the input is empty). -/
theorem jsTrim_eq_empty_iff (s : String) :
    jsTrim s = "" ↔ isBlank s = true := by
  unfold isBlank
  rw [List.all_eq_true]
  have key : jsTrim s = "" ↔ trimEndChars (trimStartChars s.data) = [] := by
    unfold jsTrim
    constructor
    · intro h
      exact congrArg String.data h
    · intro h
      rw [h]
  rw [key]
  unfold trimEndChars trimStartChars
  rw [List.reverse_eq_nil_iff, List.dropWhile_eq_nil_iff]
  constructor
  · intro h
    have h2 : s.data.dropWhile isJsWhitespace = [] :=
      dropWhile_nil_of_all s.data (fun c hc => h c (List.mem_reverse.mpr hc))
    exact List.dropWhile_eq_nil_iff.mp h2
  · intro h c hc
    have h2 : s.data.dropWhile isJsWhitespace = [] := List.dropWhile_eq_nil_iff.mpr h
    rw [h2] at hc
    simp at hc

/-- A text that neither starts nor ends with whitespace is its own trimmed
form. -/
theorem jsTrim_eq_self (s : String)
    (hfirst : ∀ c ∈ s.data.head?, isJsWhitespace c = false)
    (hlast : ∀ c ∈ s.data.getLast?, isJsWhitespace c = false) :
    jsTrim s = s := by
  have h1 : trimStartChars s.data = s.data := by
    unfold trimStartChars
    cases hd : s.data with
    | nil => rfl
    | cons c cs =>
      have : isJsWhitespace c = false := hfirst c (by simp [hd])
      simp [List.dropWhile_cons, this]
  have h2 : trimEndChars s.data = s.data := by
    unfold trimEndChars
    cases hd : s.data.reverse with
    | nil =>
      have : s.data = [] := List.reverse_eq_nil_iff.mp hd
      simp [this]
    | cons c cs =>
      have hl : s.data.getLast? = some c := by
        rw [← List.head?_reverse, hd]
        rfl
      have : isJsWhitespace c = false := hlast c (by simp [hl])
      rw [List.dropWhile_cons, this]
      simp only [Bool.false_eq_true, ↓reduceIte]
      rw [← hd, List.reverse_reverse]
  unfold jsTrim
  rw [h1, h2]

theorem loadSuspect_none (i : Nat) (s : State) (h : s.suspects[i]? = none) :
    loadSuspect i s = ⟨s, some .typeError⟩ := by
  simp [loadSuspect, h]

theorem loadSuspect_some (i : Nat) (s : State) (sp : Suspect)
    (h : s.suspects[i]? = some sp) :
    loadSuspect i s =
      ⟨{ s with
          suspectName := sp.name,
          suspectRole := sp.role,
          suspectNumber := toString (i + 1) ++ "/" ++ toString s.suspects.length,
          prevDisabled := decide (i = 0),
          nextDisabled := decide ((i : Int) = (s.suspects.length : Int) - 1),
          chatMessages := [] }, none⟩ := by
  simp [loadSuspect, h]

/-! ## What each handler does, case by case -/

theorem prev_at_zero (s : State) (h : s.currentSuspectIndex = 0) :
    prev s = ⟨s, none⟩ := by
  simp [prev, h]

theorem prev_throws (s : State) (h : 0 < s.currentSuspectIndex)
    (hs : s.suspects[s.currentSuspectIndex - 1]? = none) :
    prev s = ⟨{ s with currentSuspectIndex := s.currentSuspectIndex - 1 },
              some .typeError⟩ := by
  simp [prev, h, loadSuspect_none, hs, Outcome.andThen]

theorem prev_moves (s : State) (sp : Suspect) (h : 0 < s.currentSuspectIndex)
    (hs : s.suspects[s.currentSuspectIndex - 1]? = some sp) :
    prev s =
      ⟨{ s with
          currentSuspectIndex := s.currentSuspectIndex - 1,
          suspectName := sp.name,
          suspectRole := sp.role,
          suspectNumber :=
            toString (s.currentSuspectIndex - 1 + 1) ++ "/" ++ toString s.suspects.length,
          prevDisabled := decide (s.currentSuspectIndex - 1 = 0),
          nextDisabled :=
            decide (((s.currentSuspectIndex - 1 : Nat) : Int) = (s.suspects.length : Int) - 1),
          chatMessages :=
            [systemMessage ("🔄 Cambiando a sospechoso " ++
              toString (s.currentSuspectIndex - 1 + 1) ++ " de " ++
              toString s.suspects.length)] }, none⟩ := by
  simp [prev, h, loadSuspect_some _ _ sp, hs, Outcome.andThen, addSystemMessage, switchNotice]

theorem next_at_end (s : State)
    (h : ¬ (s.currentSuspectIndex : Int) < (s.suspects.length : Int) - 1) :
    next s = ⟨s, none⟩ := by
  simp [next, h]

theorem next_moves (s : State) (sp : Suspect)
    (hs : s.suspects[s.currentSuspectIndex + 1]? = some sp) :
    next s =
      ⟨{ s with
          currentSuspectIndex := s.currentSuspectIndex + 1,
          suspectName := sp.name,
          suspectRole := sp.role,
          suspectNumber :=
            toString (s.currentSuspectIndex + 1 + 1) ++ "/" ++ toString s.suspects.length,
          prevDisabled := decide (s.currentSuspectIndex + 1 = 0),
          nextDisabled :=
            decide (((s.currentSuspectIndex + 1 : Nat) : Int) = (s.suspects.length : Int) - 1),
          chatMessages :=
            [systemMessage ("🔄 Cambiando a sospechoso " ++
              toString (s.currentSuspectIndex + 1 + 1) ++ " de " ++
              toString s.suspects.length)] }, none⟩ := by
  have hlt : s.currentSuspectIndex + 1 < s.suspects.length := by
    by_contra hge
    rw [List.getElem?_eq_none (Nat.le_of_not_lt hge)] at hs
    exact Option.noConfusion hs
  have hg : (s.currentSuspectIndex : Int) < (s.suspects.length : Int) - 1 := by omega
  simp [next, hg, loadSuspect_some _ _ sp, hs, Outcome.andThen, addSystemMessage, switchNotice]

theorem sendQuestion_blank (s : State) (h : jsTrim s.questionInput = "") :
    sendQuestion s = ⟨s, none⟩ := by
  simp [sendQuestion, h]

theorem sendQuestion_sends (s : State) (sp : Suspect) (h : jsTrim s.questionInput ≠ "")
    (hs : s.suspects[s.currentSuspectIndex]? = some sp) (ho : s.readyState = .OPEN) :
    sendQuestion s =
      ⟨{ s with
          chatMessages := s.chatMessages ++ [detectiveMessage (jsTrim s.questionInput)],
          questionInput := "",
          sent := s.sent ++ ["interrogar " ++ sp.name, jsTrim s.questionInput] }, none⟩ := by
  simp [sendQuestion, h, hs, ho, addDetectiveMessage, wsSend, Outcome.andThen]

theorem sendQuestion_connecting (s : State) (sp : Suspect)
    (h : jsTrim s.questionInput ≠ "")
    (hs : s.suspects[s.currentSuspectIndex]? = some sp)
    (ho : s.readyState = .CONNECTING) :
    sendQuestion s =
      ⟨{ s with
          chatMessages := s.chatMessages ++ [detectiveMessage (jsTrim s.questionInput)],
          questionInput := "" }, some .invalidStateError⟩ := by
  simp [sendQuestion, h, hs, ho, addDetectiveMessage, wsSend, Outcome.andThen]

theorem sendQuestion_dropped (s : State) (sp : Suspect)
    (h : jsTrim s.questionInput ≠ "")
    (hs : s.suspects[s.currentSuspectIndex]? = some sp)
    (ho : s.readyState = .CLOSING ∨ s.readyState = .CLOSED) :
    sendQuestion s =
      ⟨{ s with
          chatMessages := s.chatMessages ++ [detectiveMessage (jsTrim s.questionInput)],
          questionInput := "" }, none⟩ := by
  rcases ho with ho | ho <;>
    simp [sendQuestion, h, hs, ho, addDetectiveMessage, wsSend, Outcome.andThen]

theorem sendQuestion_throws (s : State) (h : jsTrim s.questionInput ≠ "")
    (hs : s.suspects[s.currentSuspectIndex]? = none) :
    sendQuestion s =
      ⟨{ s with
          chatMessages := s.chatMessages ++ [detectiveMessage (jsTrim s.questionInput)],
          questionInput := "" }, some .typeError⟩ := by
  simp [sendQuestion, h, hs, addDetectiveMessage]

/-- Whatever the connection does, sendQuestion leaves the roster, the index and
the screens alone, and throws no TypeError when the lookup at the index
succeeds. -/
theorem sendQuestion_keeps (s : State) (sp : Suspect)
    (hs : s.suspects[s.currentSuspectIndex]? = some sp) :
    (sendQuestion s).state.suspects = s.suspects ∧
    (sendQuestion s).state.currentSuspectIndex = s.currentSuspectIndex ∧
    activeCount (sendQuestion s).state = activeCount s ∧
    (sendQuestion s).thrown ≠ some .typeError := by
  by_cases hb : jsTrim s.questionInput = ""
  · rw [sendQuestion_blank s hb]
    exact ⟨rfl, rfl, rfl, by simp⟩
  · cases ho : s.readyState with
    | CONNECTING =>
      rw [sendQuestion_connecting s sp hb hs ho]
      exact ⟨rfl, rfl, rfl, by simp⟩
    | OPEN =>
      rw [sendQuestion_sends s sp hb hs ho]
      exact ⟨rfl, rfl, rfl, by simp⟩
    | CLOSING =>
      rw [sendQuestion_dropped s sp hb hs (Or.inl ho)]
      exact ⟨rfl, rfl, rfl, by simp⟩
    | CLOSED =>
      rw [sendQuestion_dropped s sp hb hs (Or.inr ho)]
      exact ⟨rfl, rfl, rfl, by simp⟩

/-- A value that `==` finds equal to one word is found different from any
other word, without an exception. -/
theorem looseEqWord_exclusive (v : JsValue) (a b : String) (hab : a ≠ b)
    (h : looseEqWord v a = some true) : looseEqWord v b = some false := by
  cases v with
  | undefined => simp [looseEqWord] at h
  | null => simp [looseEqWord] at h
  | bool x => simp [looseEqWord] at h
  | num r => simp [looseEqWord] at h
  | str t =>
    simp only [looseEqWord, Option.some.injEq, decide_eq_true_eq] at h
    simp [looseEqWord, h, hab]
  | arr items =>
    cases hj : joinItems items with
    | none => simp [looseEqWord, hj] at h
    | some t =>
      simp only [looseEqWord, hj, Option.some.injEq, decide_eq_true_eq] at h
      simp [looseEqWord, hj, h, hab]
  | obj keys =>
    by_cases hk : "toString" ∈ keys
    · simp [looseEqWord, hk] at h
    · simp only [looseEqWord, hk, if_false, Option.some.injEq, decide_eq_true_eq] at h
      subst h
      simpa [looseEqWord, hk] using hab

/-- Whether the comparison throws depends on the value alone, not on the
word. -/
theorem looseEqWord_throws_alike (v : JsValue) (a b : String) :
    looseEqWord v a = none ↔ looseEqWord v b = none := by
  cases v with
  | undefined => simp [looseEqWord]
  | null => simp [looseEqWord]
  | bool x => simp [looseEqWord]
  | num r => simp [looseEqWord]
  | str t => simp [looseEqWord]
  | arr items =>
    cases hj : joinItems items <;> simp [looseEqWord, hj]
  | obj keys =>
    by_cases hk : "toString" ∈ keys <;> simp [looseEqWord, hk]

/-- A string is compared as it is. -/
theorem looseEqWord_str (k word : String) :
    looseEqWord (.str k) word = some (decide (k = word)) := rfl

theorem onmessage_malformed (s : State) :
    onmessage .malformed s = ⟨s, some .syntaxError⟩ := rfl

theorem onmessage_null (s : State) :
    onmessage .null s = ⟨s, some .typeError⟩ := rfl

theorem onmessage_type_throws (s : State) (data : Inbound)
    (h : looseEqWord data.type "intro" = none ∨
      (looseEqWord data.type "intro" = some false ∧
        looseEqWord data.type "answer" = none)) :
    onmessage (.record data) s = ⟨s, some .typeError⟩ := by
  rcases h with h | ⟨h1, h2⟩
  · simp [onmessage, h]
  · simp [onmessage, h1, h2]

theorem onmessage_intro (s : State) (data : Inbound)
    (h : looseEqWord data.type "intro" = some true) :
    onmessage (.record data) s =
      ⟨{ s with characters := data.characters, killer := data.killer }, none⟩ := by
  simp [onmessage, h]

theorem onmessage_answer (s : State) (data : Inbound) (sp : Suspect)
    (h : looseEqWord data.type "answer" = some true)
    (hs : s.suspects[s.currentSuspectIndex]? = some sp) :
    onmessage (.record data) s =
      ⟨{ s with chatMessages := s.chatMessages ++ [suspectMessage sp data.message] },
        none⟩ := by
  have h1 : looseEqWord data.type "intro" = some false :=
    looseEqWord_exclusive data.type "answer" "intro" (by decide) h
  simp [onmessage, h, h1, addSuspectMessage, hs]

theorem onmessage_answer_throws (s : State) (data : Inbound)
    (h : looseEqWord data.type "answer" = some true)
    (hs : s.suspects[s.currentSuspectIndex]? = none) :
    onmessage (.record data) s = ⟨s, some .typeError⟩ := by
  have h1 : looseEqWord data.type "intro" = some false :=
    looseEqWord_exclusive data.type "answer" "intro" (by decide) h
  simp [onmessage, h, h1, addSuspectMessage, hs]

theorem onmessage_other (s : State) (data : Inbound)
    (h1 : looseEqWord data.type "intro" = some false)
    (h2 : looseEqWord data.type "answer" = some false) :
    onmessage (.record data) s = ⟨s, none⟩ := by
  simp [onmessage, h1, h2]

/-- Whatever the frame, the handler leaves the roster, the index and the
screens alone when the lookup at the index succeeds. -/
theorem onmessage_keeps (s : State) (event : Frame) (sp : Suspect)
    (hs : s.suspects[s.currentSuspectIndex]? = some sp) :
    (onmessage event s).state.suspects = s.suspects ∧
    (onmessage event s).state.currentSuspectIndex = s.currentSuspectIndex ∧
    activeCount (onmessage event s).state = activeCount s := by
  cases event with
  | malformed => exact ⟨rfl, rfl, rfl⟩
  | null => exact ⟨rfl, rfl, rfl⟩
  | record data =>
    cases h1 : looseEqWord data.type "intro" with
    | none =>
      rw [onmessage_type_throws s data (Or.inl h1)]
      exact ⟨rfl, rfl, rfl⟩
    | some b1 =>
      cases b1 with
      | true =>
        rw [onmessage_intro s data h1]
        exact ⟨rfl, rfl, rfl⟩
      | false =>
        cases h2 : looseEqWord data.type "answer" with
        | none =>
          rw [onmessage_type_throws s data (Or.inr ⟨h1, h2⟩)]
          exact ⟨rfl, rfl, rfl⟩
        | some b2 =>
          cases b2 with
          | true =>
            rw [onmessage_answer s data sp h2 hs]
            exact ⟨rfl, rfl, rfl⟩
          | false =>
            rw [onmessage_other s data h1 h2]
            exact ⟨rfl, rfl, rfl⟩

theorem startGame_throws (s : State) (hs : s.suspects[0]? = none) :
    startGame s =
      ⟨{ hideAllScreens s with gameActive := true, currentSuspectIndex := 0 },
        some .typeError⟩ := by
  simp [startGame, loadSuspect, hideAllScreens, hs]

theorem startGame_loads (s : State) (sp : Suspect) (hs : s.suspects[0]? = some sp) :
    startGame s =
      ⟨{ hideAllScreens s with
          gameActive := true,
          currentSuspectIndex := 0,
          suspectName := sp.name,
          suspectRole := sp.role,
          suspectNumber := toString (0 + 1) ++ "/" ++ toString s.suspects.length,
          prevDisabled := true,
          nextDisabled := decide (((0 : Nat) : Int) = (s.suspects.length : Int) - 1),
          chatMessages := [] }, none⟩ := by
  simp [startGame, loadSuspect, hideAllScreens, hs]

theorem solveCase_unbound (s : State) (hc : s.choice = none) :
    solveCase s =
      ⟨{ s with dialogs := s.dialogs ++ [suspectList s] }, some .referenceError⟩ := by
  simp [solveCase, hc]

theorem solveCase_nan (s : State) (c : String) (hc : s.choice = some c)
    (hp : jsParseInt c = none) :
    solveCase s =
      ⟨{ s with
          dialogs := s.dialogs ++ [suspectList s],
          alerts := s.alerts ++ ["Número inválido. Intenta de nuevo."] }, none⟩ := by
  simp [solveCase, hc, hp, alert]

theorem solveCase_out_of_range (s : State) (c : String) (k : Int) (hc : s.choice = some c)
    (hp : jsParseInt c = some k) (hr : k < 1 ∨ k > (s.suspects.length : Int)) :
    solveCase s =
      ⟨{ s with
          dialogs := s.dialogs ++ [suspectList s],
          alerts := s.alerts ++ ["Número inválido. Intenta de nuevo."] }, none⟩ := by
  simp [solveCase, hc, hp, hr, alert]

theorem solveCase_lookup (s : State) (k : Int) (h1 : ¬ (k < 1 ∨ k > (s.suspects.length : Int))) :
    ∃ sp, s.suspects[(k - 1).toNat]? = some sp := by
  have hlt : (k - 1).toNat < s.suspects.length := by omega
  exact ⟨s.suspects[(k - 1).toNat], List.getElem?_eq_getElem hlt⟩

theorem solveCase_victory (s : State) (c : String) (k : Int) (sp : Suspect)
    (hc : s.choice = some c) (hp : jsParseInt c = some k)
    (hr : ¬ (k < 1 ∨ k > (s.suspects.length : Int)))
    (hl : s.suspects[(k - 1).toNat]? = some sp) (hk : some sp.name = s.killer) :
    solveCase s =
      ⟨{ s with
          dialogs := s.dialogs ++ [suspectList s],
          startActive := false, gameActive := false,
          victoryActive := true, defeatActive := false }, none⟩ := by
  have hl2 : s.suspects[k.toNat - 1]? = some sp := by simpa using hl
  simp [solveCase, hc, hp, hr, hl2, hk, hideAllScreens]

theorem solveCase_defeat (s : State) (c : String) (k : Int) (sp : Suspect)
    (hc : s.choice = some c) (hp : jsParseInt c = some k)
    (hr : ¬ (k < 1 ∨ k > (s.suspects.length : Int)))
    (hl : s.suspects[(k - 1).toNat]? = some sp) (hk : some sp.name ≠ s.killer) :
    solveCase s =
      ⟨{ s with
          dialogs := s.dialogs ++ [suspectList s],
          startActive := false, gameActive := false,
          victoryActive := false, defeatActive := true }, none⟩ := by
  have hl2 : s.suspects[k.toNat - 1]? = some sp := by simpa using hl
  simp [solveCase, hc, hp, hr, hl2, hk, hideAllScreens]

/-! ## Invariants of the transition system -/

theorem inv_of_initial (s : State) (h : Initial s) : Inv s := by
  obtain ⟨h0, hr, -, -, -, ha, hb, hc, hd, -⟩ := h
  refine ⟨hr, by omega, ?_⟩
  simp [activeCount, ha, hb, hc, hd]

theorem lookup_of_lt (s : State) (hr : s.suspects = roster) (i : Nat) (hi : i < 5) :
    ∃ sp, s.suspects[i]? = some sp ∧ sp ∈ roster := by
  have hlt : i < s.suspects.length := by rw [hr]; exact hi
  refine ⟨s.suspects[i], List.getElem?_eq_getElem hlt, ?_⟩
  rw [← hr]
  exact List.getElem_mem hlt

theorem solveCase_inv (s : State) (h : Inv s) : Inv (solveCase s).state := by
  obtain ⟨hr, hi, ha⟩ := h
  cases hc : s.choice with
  | none =>
    rw [solveCase_unbound s hc]
    exact ⟨hr, hi, ha⟩
  | some c =>
    cases hp : jsParseInt c with
    | none =>
      rw [solveCase_nan s c hc hp]
      exact ⟨hr, hi, ha⟩
    | some k =>
      by_cases hrange : k < 1 ∨ k > (s.suspects.length : Int)
      · rw [solveCase_out_of_range s c k hc hp hrange]
        exact ⟨hr, hi, ha⟩
      · obtain ⟨sp, hl⟩ := solveCase_lookup s k hrange
        by_cases hk : some sp.name = s.killer
        · rw [solveCase_victory s c k sp hc hp hrange hl hk]
          exact ⟨hr, hi, rfl⟩
        · rw [solveCase_defeat s c k sp hc hp hrange hl hk]
          exact ⟨hr, hi, rfl⟩

theorem step_inv (s : State) (op : Op) (h : Inv s) : Inv (step s op) := by
  obtain ⟨hr, hi, ha⟩ := h
  cases op with
  | goToStart => exact ⟨hr, hi, rfl⟩
  | startGame =>
    obtain ⟨sp, hs, -⟩ := lookup_of_lt s hr 0 (by omega)
    simp only [step, startGame_loads s sp hs]
    exact ⟨hr, by simp, rfl⟩
  | prev =>
    by_cases h0 : s.currentSuspectIndex = 0
    · simp only [step, prev_at_zero s h0]
      exact ⟨hr, hi, ha⟩
    · obtain ⟨sp, hs, -⟩ := lookup_of_lt s hr (s.currentSuspectIndex - 1) (by omega)
      simp only [step, prev_moves s sp (by omega) hs]
      exact ⟨hr, by simp; omega, ha⟩
  | next =>
    by_cases h4 : s.currentSuspectIndex + 1 < 5
    · obtain ⟨sp, hs, -⟩ := lookup_of_lt s hr (s.currentSuspectIndex + 1) h4
      simp only [step, next_moves s sp hs]
      exact ⟨hr, h4, ha⟩
    · have hlen : s.suspects.length = 5 := by rw [hr]; rfl
      have hg : ¬ (s.currentSuspectIndex : Int) < (s.suspects.length : Int) - 1 := by omega
      simp only [step, next_at_end s hg]
      exact ⟨hr, hi, ha⟩
  | sendQuestion text =>
    obtain ⟨sp, hs, -⟩ := lookup_of_lt s hr s.currentSuspectIndex hi
    obtain ⟨k1, k2, k3, -⟩ := sendQuestion_keeps { s with questionInput := text } sp hs
    simp only [step]
    exact ⟨k1.trans hr, by rw [k2]; exact hi, k3.trans ha⟩
  | message event =>
    obtain ⟨sp, hs, -⟩ := lookup_of_lt s hr s.currentSuspectIndex hi
    obtain ⟨k1, k2, k3⟩ := onmessage_keeps s event sp hs
    simp only [step]
    exact ⟨k1.trans hr, by rw [k2]; exact hi, k3.trans ha⟩
  | connection r => exact ⟨hr, hi, ha⟩
  | solveCase => exact solveCase_inv s ⟨hr, hi, ha⟩
  | dialogClosed result =>
    cases hres : result.isConfirmed
    · simp only [step, dialogClosed, hres]
      exact ⟨hr, hi, ha⟩
    · simp only [step, dialogClosed, hres]
      exact ⟨hr, hi, ha⟩

theorem run_inv (ops : List Op) : ∀ s : State, Inv s → Inv (run s ops) := by
  induction ops with
  | nil => intro s h; exact h
  | cons op ops ih =>
    intro s h
    exact ih (step s op) (step_inv s op h)

/-! ## Screens -/

/-- C1: from a freshly loaded page with only the Start screen active, every
sequence of events (goToStart, startGame, prev, next, sendQuestion, inbound
frame of any sort, solveCase, closing of a dialog, change of the connection
state) ends with exactly one active screen;
and from any state at all, whatever its four flags, goToStart leaves Start as
the only active screen and startGame leaves Game as the only active screen. -/
theorem single_active_screen (s0 : State) (h0 : Initial s0) (ops : List Op) (s : State) :
    activeCount (run s0 ops) = 1 ∧
    (activeCount (goToStart s) = 1 ∧ (goToStart s).startActive = true) ∧
    (activeCount (startGame s).state = 1 ∧ (startGame s).state.gameActive = true) := by
  refine ⟨(run_inv ops s0 (inv_of_initial s0 h0)).2.2, ⟨rfl, rfl⟩, ?_⟩
  cases hs : s.suspects[0]? with
  | none =>
    rw [startGame_throws s hs]
    exact ⟨rfl, rfl⟩
  | some sp =>
    rw [startGame_loads s sp hs]
    exact ⟨rfl, rfl⟩

/-- C1 at a concrete run and a concrete scrambled state. -/
theorem single_active_screen_witness :
    Initial initialState ∧
    activeCount scrambledState = 3 ∧
    (activeCount
        (run initialState
          [.startGame, .message (.record introMessage), .next, .sendQuestion "hola",
           .connection .OPEN, .sendQuestion "hola", .message (.record arrayAnswerMessage),
           .message .malformed, .solveCase, .dialogClosed ⟨true, "3"⟩, .solveCase,
           .goToStart, .prev]) = 1 ∧
      (activeCount (goToStart scrambledState) = 1 ∧
        (goToStart scrambledState).startActive = true) ∧
      (activeCount (startGame scrambledState).state = 1 ∧
        (startGame scrambledState).state.gameActive = true)) :=
  ⟨initial_initialState, by decide,
    single_active_screen initialState initial_initialState _ scrambledState⟩

/-! ## Suspect navigation -/

/-- C6: prev at index 0 and next at the last index return without changing
anything in the state (index, transcript, displayed suspect, screens, and so
no notice is appended) and without throwing. -/
theorem prev_next_noop_at_boundary (s t : State)
    (hs : s.currentSuspectIndex = 0)
    (ht : t.currentSuspectIndex + 1 = t.suspects.length) :
    prev s = ⟨s, none⟩ ∧ next t = ⟨t, none⟩ := by
  refine ⟨prev_at_zero s hs, next_at_end t ?_⟩
  omega

/-- C6 at the first and at the last suspect of the roster. -/
theorem prev_next_noop_at_boundary_witness :
    firstSuspectState.currentSuspectIndex = 0 ∧
    lastSuspectState.currentSuspectIndex + 1 = lastSuspectState.suspects.length ∧
    prev firstSuspectState = ⟨firstSuspectState, none⟩ ∧
    next lastSuspectState = ⟨lastSuspectState, none⟩ :=
  ⟨by decide, by decide,
    prev_next_noop_at_boundary firstSuspectState lastSuspectState (by decide) (by decide)⟩

/-- C7: a prev with 0 < i (i inside the roster) and a next with i + 1 < N
move the index by one and leave a transcript of exactly one message: the
System notice (class `message suspect` with the system colours, label
`🎪 SISTEMA:`) whose text is `🔄 Cambiando a sospechoso`, the new 1-indexed
position, `de` and the roster size; nothing of the old transcript remains. -/
theorem switch_leaves_one_notice (s t : State)
    (hs0 : 0 < s.currentSuspectIndex) (hs : s.currentSuspectIndex < s.suspects.length)
    (ht : t.currentSuspectIndex + 1 < t.suspects.length) :
    ((prev s).thrown = none ∧
      (prev s).state.currentSuspectIndex + 1 = s.currentSuspectIndex ∧
      (prev s).state.chatMessages =
        [{ className := "message suspect", systemStyle := true, label := "🎪 SISTEMA:",
           text := "🔄 Cambiando a sospechoso " ++
             toString ((prev s).state.currentSuspectIndex + 1) ++ " de " ++
             toString s.suspects.length }]) ∧
    ((next t).thrown = none ∧
      (next t).state.currentSuspectIndex = t.currentSuspectIndex + 1 ∧
      (next t).state.chatMessages =
        [{ className := "message suspect", systemStyle := true, label := "🎪 SISTEMA:",
           text := "🔄 Cambiando a sospechoso " ++
             toString ((next t).state.currentSuspectIndex + 1) ++ " de " ++
             toString t.suspects.length }]) := by
  have h1 : s.currentSuspectIndex - 1 < s.suspects.length := by omega
  rw [prev_moves s _ hs0 (List.getElem?_eq_getElem h1),
    next_moves t _ (List.getElem?_eq_getElem ht)]
  refine ⟨⟨rfl, ?_, rfl⟩, rfl, rfl, rfl⟩
  show s.currentSuspectIndex - 1 + 1 = s.currentSuspectIndex
  omega

/-- C7 at the third suspect, whose transcript holds three messages: prev leaves
the single notice 2 de 5, next the single notice 4 de 5. -/
theorem switch_leaves_one_notice_witness :
    thirdSuspectState.chatMessages.length = 3 ∧
    (0 < thirdSuspectState.currentSuspectIndex ∧
     thirdSuspectState.currentSuspectIndex + 1 < thirdSuspectState.suspects.length) ∧
    (prev thirdSuspectState).state.chatMessages =
      [{ className := "message suspect", systemStyle := true, label := "🎪 SISTEMA:",
         text := "🔄 Cambiando a sospechoso 2 de 5" }] ∧
    (next thirdSuspectState).state.chatMessages =
      [{ className := "message suspect", systemStyle := true, label := "🎪 SISTEMA:",
         text := "🔄 Cambiando a sospechoso 4 de 5" }] :=
  ⟨by decide, by decide,
    (switch_leaves_one_notice thirdSuspectState thirdSuspectState
      (by decide) (by decide) (by decide)).1.2.2,
    (switch_leaves_one_notice thirdSuspectState thirdSuspectState
      (by decide) (by decide) (by decide)).2.2.2⟩

/-! ## Inbound messages -/

/-- C8: a message that the handler takes for an answer (its type equals
`"answer"` under `==`, as the string answer does) received while the index
points at the suspect sp appends exactly one Suspect message at the last place
of the transcript: class `message suspect` without the system colours, the
label made of `undefined` (the roster has no avatars), the name of sp and a
colon, and the reply text.  The handler does not throw, and every other part
of the state (earlier messages and their order, index, screens, frames sent)
is as before.  The state is arbitrary, so nothing depends on the suspect that
was selected when the question was sent. -/
theorem answer_appends_suspect_message (s : State) (data : Inbound) (sp : Suspect)
    (hk : looseEqWord data.type "answer" = some true)
    (hs : s.suspects[s.currentSuspectIndex]? = some sp) :
    onmessage (.record data) s =
      ⟨{ s with
          chatMessages := s.chatMessages ++
            [{ className := "message suspect", systemStyle := false,
               label := "undefined " ++ sp.name ++ ":", text := data.message }] },
        none⟩ :=
  onmessage_answer s data sp hk hs

/-- C8 with the question sent at index 0 and the answer received at index 2:
the reply is attributed to the third suspect. -/
theorem answer_appends_suspect_message_witness :
    askedFirstThenSwitched.sent =
      ["interrogar Jack Domador", "hola", "interrogar Mefisto Bombita", "y usted"] ∧
    askedFirstThenSwitched.currentSuspectIndex = 2 ∧
    looseEqWord answerMessage.type "answer" = some true ∧
    (onmessage (.record answerMessage) askedFirstThenSwitched).state.chatMessages =
      askedFirstThenSwitched.chatMessages ++
        [{ className := "message suspect", systemStyle := false,
           label := "undefined Mefisto Bombita:", text := "Estaba en la carpa." }] :=
  ⟨by decide, by decide, by decide,
    congrArg (fun r => r.state.chatMessages)
      (answer_appends_suspect_message askedFirstThenSwitched answerMessage
        ⟨"Mefisto Bombita", "Payaso"⟩ (by decide) (by decide))⟩

/-- C9, as the code has it: a parsed message whose type equals neither
`"intro"` nor `"answer"` under the comparison `==` of lines 50 and 56 leaves the
whole state as it was (transcript, index, screens, cached killer, cached
characters, frames sent).  The handler returns normally when the comparison
itself succeeds, which it does for every type that is a string or is absent,
and throws a TypeError, still without changing anything, when the type cannot
be converted; so does the parsed value `null`. -/
theorem unrecognised_message_ignored (s : State) (data : Inbound)
    (h1 : looseEqWord data.type "intro" ≠ some true)
    (h2 : looseEqWord data.type "answer" ≠ some true) :
    (onmessage (.record data) s).state = s ∧
    (looseEqWord data.type "intro" = some false →
      onmessage (.record data) s = ⟨s, none⟩) ∧
    (looseEqWord data.type "intro" = none →
      onmessage (.record data) s = ⟨s, some .typeError⟩) ∧
    ((∃ k, data.type = .str k) ∨ data.type = .undefined →
      onmessage (.record data) s = ⟨s, none⟩) ∧
    onmessage .null s = ⟨s, some .typeError⟩ := by
  have hsome : looseEqWord data.type "intro" = some false →
      onmessage (.record data) s = ⟨s, none⟩ := by
    intro h
    cases h3 : looseEqWord data.type "answer" with
    | none =>
      rw [(looseEqWord_throws_alike data.type "answer" "intro").mp h3] at h
      exact Option.noConfusion h
    | some b =>
      cases b with
      | true => exact absurd h3 h2
      | false => exact onmessage_other s data h h3
  have hnone : looseEqWord data.type "intro" = none →
      onmessage (.record data) s = ⟨s, some .typeError⟩ :=
    fun h => onmessage_type_throws s data (Or.inl h)
  refine ⟨?_, hsome, hnone, ?_, rfl⟩
  · cases h : looseEqWord data.type "intro" with
    | none => rw [hnone h]
    | some b =>
      cases b with
      | true => exact absurd h h1
      | false => rw [hsome h]
  · intro hty
    apply hsome
    rcases hty with ⟨k, hk⟩ | hu
    · rw [hk] at h1 ⊢
      rw [looseEqWord_str] at h1 ⊢
      cases hd : decide (k = "intro") with
      | true => rw [hd] at h1; exact absurd rfl h1
      | false => rfl
    · rw [hu]
      rfl

/-- C9 for a message of type ping, for a message without a type, for a message
whose type is an array that joins to another text, and for a message whose
type is an object that cannot be converted. -/
theorem unrecognised_message_ignored_witness :
    (looseEqWord pingMessage.type "intro" ≠ some true ∧
      looseEqWord pingMessage.type "answer" ≠ some true) ∧
    onmessage (.record pingMessage) thirdSuspectState = ⟨thirdSuspectState, none⟩ ∧
    onmessage (.record untypedMessage) thirdSuspectState = ⟨thirdSuspectState, none⟩ ∧
    onmessage (.record splitTypeMessage) thirdSuspectState = ⟨thirdSuspectState, none⟩ ∧
    onmessage (.record oddTypeMessage) thirdSuspectState =
      ⟨thirdSuspectState, some .typeError⟩ :=
  ⟨by decide,
    (unrecognised_message_ignored thirdSuspectState pingMessage
      (by decide) (by decide)).2.1 (by decide),
    (unrecognised_message_ignored thirdSuspectState untypedMessage
      (by decide) (by decide)).2.1 (by decide),
    (unrecognised_message_ignored thirdSuspectState splitTypeMessage
      (by decide) (by decide)).2.1 (by decide),
    (unrecognised_message_ignored thirdSuspectState oddTypeMessage
      (by decide) (by decide)).2.2.1 (by decide)⟩

/-- C9 with the kind read off the type field fails: a type that is the array
holding the string answer is neither the string intro nor the string answer,
yet the handler appends a Suspect message; and a type that is the array holding
the string intro overwrites the cached killer and characters. -/
theorem array_typed_message_is_handled :
    (arrayAnswerMessage.type ≠ .str "intro" ∧ arrayAnswerMessage.type ≠ .str "answer" ∧
      (onmessage (.record arrayAnswerMessage) thirdSuspectState).state.chatMessages =
        thirdSuspectState.chatMessages ++
          [{ className := "message suspect", systemStyle := false,
             label := "undefined Mefisto Bombita:", text := "x" }] ∧
      (onmessage (.record arrayAnswerMessage) thirdSuspectState).state ≠
        thirdSuspectState) ∧
    (arrayIntroMessage.type ≠ .str "intro" ∧ arrayIntroMessage.type ≠ .str "answer" ∧
      thirdSuspectState.killer = none ∧
      (onmessage (.record arrayIntroMessage) thirdSuspectState).state.killer =
        some "Jack Domador" ∧
      (onmessage (.record arrayIntroMessage) thirdSuspectState).state ≠
        thirdSuspectState) :=
  ⟨⟨by simp [arrayAnswerMessage], by simp [arrayAnswerMessage], by decide, by decide⟩,
    ⟨by simp [arrayIntroMessage], by simp [arrayIntroMessage], by decide, by decide,
      by decide⟩⟩

/-! ## Questions -/

/-- C5: when the input field is empty or holds whitespace only, sendQuestion
returns the state it was given: no message is appended, no frame is sent, index
and screens are as before. -/
theorem blank_question_ignored (s : State) (h : isBlank s.questionInput = true) :
    sendQuestion s = ⟨s, none⟩ :=
  sendQuestion_blank s ((jsTrim_eq_empty_iff s.questionInput).mpr h)

/-- C5 on an input of spaces, a tab and a no-break space, and on an empty one. -/
theorem blank_question_ignored_witness :
    isBlank blankInputState.questionInput = true ∧
    isBlank thirdSuspectState.questionInput = true ∧
    sendQuestion blankInputState = ⟨blankInputState, none⟩ ∧
    sendQuestion thirdSuspectState = ⟨thirdSuspectState, none⟩ :=
  ⟨by decide, by decide, blank_question_ignored blankInputState (by decide),
    blank_question_ignored thirdSuspectState (by decide)⟩

/-- C4, as the code has it: when the input field holds some character that is
not whitespace and the index points at the suspect sp, sendQuestion appends one
Detective message (class `message detective`, label `🔍 DETECTIVE:`) at the last
place of the transcript and empties the input field, whatever the state of the
connection; when the connection is open it sends exactly two frames and returns
normally, the routing frame made of the word interrogar, a space and the name
of sp, then the payload frame.  The message and the payload both carry the
trimmed input, which is the input itself when it neither starts nor ends with
whitespace. -/
theorem question_sends_trimmed_text (s : State) (sp : Suspect)
    (h : isBlank s.questionInput = false)
    (hs : s.suspects[s.currentSuspectIndex]? = some sp) :
    ((sendQuestion s).state.chatMessages =
        s.chatMessages ++
          [{ className := "message detective", systemStyle := false,
             label := "🔍 DETECTIVE:", text := jsTrim s.questionInput }] ∧
      (sendQuestion s).state.questionInput = "") ∧
    (s.readyState = .OPEN →
      sendQuestion s =
        ⟨{ s with
            chatMessages := s.chatMessages ++
              [{ className := "message detective", systemStyle := false,
                 label := "🔍 DETECTIVE:", text := jsTrim s.questionInput }],
            questionInput := "",
            sent := s.sent ++ ["interrogar " ++ sp.name, jsTrim s.questionInput] },
          none⟩) ∧
    ((∀ c ∈ s.questionInput.data.head?, isJsWhitespace c = false) →
     (∀ c ∈ s.questionInput.data.getLast?, isJsWhitespace c = false) →
      jsTrim s.questionInput = s.questionInput) := by
  have hb : jsTrim s.questionInput ≠ "" := by
    intro hb
    rw [(jsTrim_eq_empty_iff s.questionInput).mp hb] at h
    exact Bool.noConfusion h
  refine ⟨?_, fun ho => sendQuestion_sends s sp hb hs ho, jsTrim_eq_self s.questionInput⟩
  cases ho : s.readyState with
  | CONNECTING =>
    rw [sendQuestion_connecting s sp hb hs ho]
    exact ⟨rfl, rfl⟩
  | OPEN =>
    rw [sendQuestion_sends s sp hb hs ho]
    exact ⟨rfl, rfl⟩
  | CLOSING =>
    rw [sendQuestion_dropped s sp hb hs (Or.inl ho)]
    exact ⟨rfl, rfl⟩
  | CLOSED =>
    rw [sendQuestion_dropped s sp hb hs (Or.inr ho)]
    exact ⟨rfl, rfl⟩

/-- C4 on a padded question at index 2 with the connection open: both frames,
the Detective message and the emptied field. -/
theorem question_sends_trimmed_text_witness :
    (isBlank paddedInputState.questionInput = false ∧
      paddedInputState.readyState = .OPEN) ∧
    (sendQuestion paddedInputState).state.sent =
      paddedInputState.sent ++ ["interrogar Mefisto Bombita", "Where were you?"] ∧
    (sendQuestion paddedInputState).state.chatMessages =
      paddedInputState.chatMessages ++
        [{ className := "message detective", systemStyle := false,
           label := "🔍 DETECTIVE:", text := "Where were you?" }] ∧
    (sendQuestion paddedInputState).state.questionInput = "" :=
  ⟨by decide,
    congrArg (fun r => r.state.sent)
      ((question_sends_trimmed_text paddedInputState ⟨"Mefisto Bombita", "Payaso"⟩
        (by decide) (by decide)).2.1 (by decide)),
    (question_sends_trimmed_text paddedInputState ⟨"Mefisto Bombita", "Payaso"⟩
      (by decide) (by decide)).1.1,
    (question_sends_trimmed_text paddedInputState ⟨"Mefisto Bombita", "Payaso"⟩
      (by decide) (by decide)).1.2⟩

/-- C4 as it reads fails twice.  With a space typed before and after the
question, at index 2 of the roster and on an open connection, the payload frame
and the Detective message carry the question without the two spaces, not the
text as entered.  And with a question typed while the socket is still
connecting, at index 2, the first send throws an InvalidStateError: the
message is appended and the field emptied, but no frame is sent. -/
theorem question_payload_is_not_raw_input :
    (isBlank paddedInputState.questionInput = false ∧
      paddedInputState.currentSuspectIndex = 2 ∧
      paddedInputState.readyState = .OPEN ∧
      (sendQuestion paddedInputState).state.sent ≠
        paddedInputState.sent ++
          ["interrogar Mefisto Bombita", paddedInputState.questionInput] ∧
      (sendQuestion paddedInputState).state.chatMessages ≠
        paddedInputState.chatMessages ++
          [detectiveMessage paddedInputState.questionInput]) ∧
    (isBlank earlyQuestionState.questionInput = false ∧
      earlyQuestionState.currentSuspectIndex = 2 ∧
      earlyQuestionState.readyState = .CONNECTING ∧
      (sendQuestion earlyQuestionState).thrown = some .invalidStateError ∧
      (sendQuestion earlyQuestionState).state.sent = [] ∧
      (sendQuestion earlyQuestionState).state.sent ≠
        earlyQuestionState.sent ++ ["interrogar Mefisto Bombita", "Where were you?"]) := by
  decide

/-! ## The index and the roster -/

/-- C10: in every state reached from a freshly loaded page by any sequence of
events, the roster is the fixed one of 5 suspects and the index is below 5, so
the lookup at the index yields a suspect of the roster and none of loadSuspect,
addSuspectMessage, sendQuestion, startGame, prev and next throws a TypeError
there (loadSuspect, addSuspectMessage, startGame, prev and next throw nothing);
startGame sets the index to 0, prev lowers it by exactly 1 when it is positive
and keeps it otherwise, next raises it by exactly 1 when it is below 4 and
keeps it otherwise. -/
theorem index_stays_in_roster (s0 : State) (h0 : Initial s0) (ops : List Op)
    (text : String) :
    roster.length = 5 ∧
    (run s0 ops).suspects = roster ∧
    (run s0 ops).currentSuspectIndex < 5 ∧
    (∃ sp, sp ∈ roster ∧
      (run s0 ops).suspects[(run s0 ops).currentSuspectIndex]? = some sp) ∧
    ((loadSuspect (run s0 ops).currentSuspectIndex (run s0 ops)).thrown = none ∧
      (addSuspectMessage text (run s0 ops)).thrown = none ∧
      (sendQuestion { run s0 ops with questionInput := text }).thrown ≠
        some .typeError) ∧
    ((startGame (run s0 ops)).thrown = none ∧
      (startGame (run s0 ops)).state.currentSuspectIndex = 0) ∧
    ((prev (run s0 ops)).thrown = none ∧
      (0 < (run s0 ops).currentSuspectIndex →
        (prev (run s0 ops)).state.currentSuspectIndex + 1 =
          (run s0 ops).currentSuspectIndex) ∧
      ((run s0 ops).currentSuspectIndex = 0 →
        (prev (run s0 ops)).state.currentSuspectIndex = 0)) ∧
    ((next (run s0 ops)).thrown = none ∧
      ((run s0 ops).currentSuspectIndex < 4 →
        (next (run s0 ops)).state.currentSuspectIndex =
          (run s0 ops).currentSuspectIndex + 1) ∧
      ((run s0 ops).currentSuspectIndex = 4 →
        (next (run s0 ops)).state.currentSuspectIndex = 4)) := by
  obtain ⟨hr, hi, -⟩ := run_inv ops s0 (inv_of_initial s0 h0)
  generalize run s0 ops = s at hr hi
  have hlen : s.suspects.length = 5 := by rw [hr]; rfl
  obtain ⟨sp, hs, hmem⟩ := lookup_of_lt s hr s.currentSuspectIndex hi
  obtain ⟨sp0, hs0, -⟩ := lookup_of_lt s hr 0 (by omega)
  refine ⟨rfl, hr, hi, ⟨sp, hmem, hs⟩, ⟨?_, ?_, ?_⟩, ?_, ⟨?_, ?_, ?_⟩, ?_, ?_, ?_⟩
  · rw [loadSuspect_some _ s sp hs]
  · simp [addSuspectMessage, hs]
  · exact (sendQuestion_keeps { s with questionInput := text } sp hs).2.2.2
  · rw [startGame_loads s sp0 hs0]
    exact ⟨rfl, rfl⟩
  · by_cases hz : s.currentSuspectIndex = 0
    · rw [prev_at_zero s hz]
    · obtain ⟨sq, hq, -⟩ := lookup_of_lt s hr (s.currentSuspectIndex - 1) (by omega)
      rw [prev_moves s sq (by omega) hq]
  · intro hpos
    obtain ⟨sq, hq, -⟩ := lookup_of_lt s hr (s.currentSuspectIndex - 1) (by omega)
    rw [prev_moves s sq hpos hq]
    show s.currentSuspectIndex - 1 + 1 = s.currentSuspectIndex
    omega
  · intro hz
    rw [prev_at_zero s hz]
    exact hz
  · by_cases h4 : s.currentSuspectIndex + 1 < 5
    · obtain ⟨sq, hq, -⟩ := lookup_of_lt s hr (s.currentSuspectIndex + 1) h4
      rw [next_moves s sq hq]
    · rw [next_at_end s (by omega)]
  · intro h4
    obtain ⟨sq, hq, -⟩ := lookup_of_lt s hr (s.currentSuspectIndex + 1) (by omega)
    rw [next_moves s sq hq]
  · intro h4
    rw [next_at_end s (by omega)]
    exact h4

/-- C10 after a run that pushes against both ends of the roster. -/
theorem index_stays_in_roster_witness :
    Initial initialState ∧
    (run initialState
        [.prev, .startGame, .prev, .next, .next, .next, .next, .next, .next,
         .message (.record answerMessage)]).currentSuspectIndex < 5 ∧
    (sendQuestion
        { run initialState
            [.prev, .startGame, .prev, .next, .next, .next, .next, .next, .next,
             .message (.record answerMessage)] with questionInput := "hola" }).thrown ≠
      some .typeError :=
  ⟨initial_initialState,
    (index_stays_in_roster initialState initial_initialState
      [.prev, .startGame, .prev, .next, .next, .next, .next, .next, .next,
       .message (.record answerMessage)] "hola").2.2.1,
    (index_stays_in_roster initialState initial_initialState
      [.prev, .startGame, .prev, .next, .next, .next, .next, .next, .next,
       .message (.record answerMessage)] "hola").2.2.2.2.1.2.2⟩

/-! ## Accusation -/

/-- What the body of solveCase does with the choice it finds in the global: a
number k in [1, N] selects Victory when the k-th suspect has the cached
killer name and Defeat otherwise. -/
theorem solveCase_judges_stored_choice (s : State) (c : String) (k : Int) (sp : Suspect)
    (hc : s.choice = some c) (hp : jsParseInt c = some k)
    (h1 : 1 ≤ k) (hN : k ≤ (s.suspects.length : Int))
    (hl : s.suspects[(k - 1).toNat]? = some sp) :
    (some sp.name = s.killer →
      (solveCase s).state.victoryActive = true ∧ activeCount (solveCase s).state = 1) ∧
    (some sp.name ≠ s.killer →
      (solveCase s).state.defeatActive = true ∧ activeCount (solveCase s).state = 1) := by
  have hr : ¬ (k < 1 ∨ k > (s.suspects.length : Int)) := by omega
  constructor
  · intro hk
    rw [solveCase_victory s c k sp hc hp hr hl hk]
    exact ⟨rfl, rfl⟩
  · intro hk
    rw [solveCase_defeat s c k sp hc hp hr hl hk]
    exact ⟨rfl, rfl⟩

/-- C2 on the code: the third suspect is the cached killer and the user
confirms 3 in the dialog of the first solveCase call, yet that call throws a
ReferenceError and the Game screen stays; and a second call whose dialog is
confirmed with 3, after a first dialog confirmed with 1, shows Defeat. -/
theorem solveCase_does_not_use_its_own_dialog :
    (roster[2]?.map Suspect.name = some "Mefisto Bombita" ∧
      caseOpened.killer = some "Mefisto Bombita" ∧
      caseOpened.gameActive = true ∧ caseOpened.choice = none) ∧
    ((solveCaseThen ⟨true, "3"⟩ caseOpened).thrown = some .referenceError ∧
      (solveCaseThen ⟨true, "3"⟩ caseOpened).state.victoryActive = false ∧
      (solveCaseThen ⟨true, "3"⟩ caseOpened).state.gameActive = true) ∧
    (afterFirstAccusation.gameActive = true ∧
      (solveCaseThen ⟨true, "3"⟩ afterFirstAccusation).thrown = none ∧
      (solveCaseThen ⟨true, "3"⟩ afterFirstAccusation).state.victoryActive = false ∧
      (solveCaseThen ⟨true, "3"⟩ afterFirstAccusation).state.defeatActive = true) := by
  decide

/-- C3 on the code: after an earlier dialog confirmed with 3, a solveCase call
whose dialog is cancelled, and one whose dialog is confirmed with abc, both
replace the Game screen by Victory and show no error notice; and a first call
confirmed with abc shows no error notice either. -/
theorem solveCase_cancel_changes_screen :
    (afterThirdChosen.gameActive = true ∧ afterThirdChosen.victoryActive = false ∧
      afterThirdChosen.choice = some "3") ∧
    ((solveCaseThen ⟨false, ""⟩ afterThirdChosen).state.gameActive = false ∧
      (solveCaseThen ⟨false, ""⟩ afterThirdChosen).state.victoryActive = true) ∧
    ((solveCaseThen ⟨true, "abc"⟩ afterThirdChosen).state.gameActive = false ∧
      (solveCaseThen ⟨true, "abc"⟩ afterThirdChosen).state.victoryActive = true ∧
      (solveCaseThen ⟨true, "abc"⟩ afterThirdChosen).state.alerts = []) ∧
    ((solveCaseThen ⟨true, "abc"⟩ caseOpened).thrown = some .referenceError ∧
      (solveCaseThen ⟨true, "abc"⟩ caseOpened).state.alerts = []) := by
  decide

end MysteryGame
